/-
Verification of the core curation engine of the product-curation service
(`app/scoring.py`, `app/llm_client.py`, `app/main.py`).

The Python code is shallowly embedded: Python floats become `ℚ` (all literals
in the source are exact decimals), `Optional[str]` becomes `Option String`,
Python truthiness of optional strings (`x or d`, `if x:`) is made explicit,
and the stateful parts (in-place score mutation, the fallible LLM gateway)
are modelled by explicit state passing and `Option`-valued oracles.
-/
import Mathlib

namespace Curation

/-! ### String helpers

Python string comparison is lexicographic on code points and `needle in hay`
is contiguous-substring containment.  Lean 4.14's `String` order does not
kernel-reduce, so both are re-implemented over `List Char`. -/

/-- Lexicographic `a <= b` on code points, as Python's `str.__le__`. -/
def strLe (a b : String) : Bool :=
  go a.data b.data
where
  go : List Char → List Char → Bool
  | [], _ => true
  | _ :: _, [] => false
  | c :: cs, d :: ds =>
    if c.val < d.val then true else if d.val < c.val then false else go cs ds

/-- Python `needle in hay` (contiguous substring containment). -/
def strContains (hay needle : String) : Bool :=
  hay.data.tails.any (fun t => needle.data.isPrefixOf t)

/-- Python `str.lower()` (ASCII case-folding; all catalog strings involved
are ASCII).  `String.toLower` itself does not kernel-reduce. -/
def strLower (s : String) : String := ⟨s.data.map Char.toLower⟩

/-- Python `x or d` for an optional string: `None` and `""` are falsy. -/
def orDefault (o : Option String) (d : String) : String :=
  match o with
  | some s => if s = "" then d else s
  | none => d

/-- Python truthiness of an optional string (`if x:`). -/
def truthy (o : Option String) : Bool :=
  match o with
  | some s => s ≠ ""
  | none => false

/-! ### Data model (`app/models.py`) -/

/-- `Location` (models.py). -/
structure Location where
  city : Option String := none
  state : Option String := none
  address : Option String := none
  country : Option String := none
  postcode : Option String := none
deriving DecidableEq, Repr

/-- `Profile` (models.py).  `extra = "allow"` lets location fields also be
supplied flat on the profile; those extras are modelled as the five optional
flat fields below (absent attribute = `none`, matching `getattr(_, _, None)`). -/
structure Profile where
  tier : Option String := none
  location : Option Location := none
  venueType : String
  cuisineStyle : Option String := none
  budgetBand : Option String := none
  city : Option String := none
  state : Option String := none
  country : Option String := none
  address : Option String := none
  postcode : Option String := none
deriving DecidableEq, Repr

/-- `Product` (models.py).  Float score fields become `ℚ`. -/
structure Product where
  id : String
  sku : Option String := none
  name : String
  product_web_description : Option String := none
  supplier : Option String := none
  brand : Option String := none
  country : Option String := none
  region : Option String := none
  visibility : Option String := none
  category_level_1 : Option String := none
  category_level_2 : Option String := none
  category_level_3 : Option String := none
  category_level_4 : Option String := none
  sold_at_cairns : Option Int := none
  sold_at_brisbane : Option Int := none
  sold_at_adelaide : Option Int := none
  sold_at_melbourne : Option Int := none
  sold_at_sydney : Option Int := none
  tags : Option (List String) := none
  origin : Option String := none
  supplier_tier : Option String := none
  is_bundle : Bool := false
  locality_score : ℚ := 0
  category_fitness : ℚ := 0
  supplier_boost : ℚ := 0
  composite_score : ℚ := 0
deriving DecidableEq, Repr

/-- `p.sku or p.id` (main.py), the identifier used everywhere a product is
named in a response list or looked up from a gateway list. -/
def skuOrId (p : Product) : String :=
  orDefault p.sku p.id

/-- `_get_location_from_profile` (identical in scoring.py and main.py):
prefer the nested location object, else fall back to flat fields.
A present `Location` instance is always truthy in Python, `None` is falsy. -/
def get_location_from_profile (profile : Profile) : Location :=
  match profile.location with
  | some loc => loc
  | none =>
    { city := profile.city, state := profile.state, address := profile.address
      country := profile.country, postcode := profile.postcode }

/-! ### Scoring engine (`app/scoring.py`, class `ProductScorer`) -/

/-- `venue_weights["restaurant"]` with its `"default"` entry. -/
def restaurantWeights (c : String) : ℚ :=
  if c = "wine" then 1 else if c = "champagne" then 4/5
  else if c = "sparkling" then 4/5 else if c = "spirits" then 3/10
  else if c = "beer" then 1/5 else 1/2

/-- `venue_weights["fine dining"]`. -/
def fineDiningWeights (c : String) : ℚ :=
  if c = "wine" then 1 else if c = "champagne" then 1
  else if c = "sparkling" then 9/10 else if c = "spirits" then 2/5
  else if c = "beer" then 1/10 else 3/5

/-- `venue_weights["bistro"]`. -/
def bistroWeights (c : String) : ℚ :=
  if c = "wine" then 9/10 else if c = "champagne" then 3/5
  else if c = "sparkling" then 7/10 else if c = "spirits" then 2/5
  else if c = "beer" then 3/10 else 1/2

/-- `venue_weights["bar"]`. -/
def barWeights (c : String) : ℚ :=
  if c = "wine" then 3/5 else if c = "champagne" then 2/5
  else if c = "sparkling" then 1/2 else if c = "spirits" then 9/10
  else if c = "beer" then 4/5 else 7/10

/-- `venue_weights["cafe"]`. -/
def cafeWeights (c : String) : ℚ :=
  if c = "wine" then 3/10 else if c = "champagne" then 1/5
  else if c = "sparkling" then 3/10 else if c = "spirits" then 1/5
  else if c = "beer" then 2/5 else 2/5

/-- `self.venue_weights.get(venue_type, self.venue_weights["restaurant"])`. -/
def venue_weights (venue : String) : String → ℚ :=
  if venue = "restaurant" then restaurantWeights
  else if venue = "fine dining" then fineDiningWeights
  else if venue = "bistro" then bistroWeights
  else if venue = "bar" then barWeights
  else if venue = "cafe" then cafeWeights
  else restaurantWeights

/-- `self.supplier_weights.get(tier, d)`: the fixed tier table, including its
literal `"default"` key, with fallback `d` for any other key. -/
def supplier_weights_get (tier : String) (d : ℚ) : ℚ :=
  if tier = "platinum" then 1 else if tier = "gold" then 4/5
  else if tier = "silver" then 3/5 else if tier = "bronze" then 2/5
  else if tier = "default" then 1/2 else d

/-- Body of the loop in `_extract_category`: classify one category-level
string, `None` if no keyword stem matches (the loop then tries the next
level). -/
def classify_category_level (level : String) : Option String :=
  let c := strLower level
  if strContains c "wine" then some "wine"
  else if strContains c "champagne" then some "champagne"
  else if strContains c "sparkling" then some "sparkling"
  else if strContains c "spirit" then some "spirits"
  else if strContains c "beer" then some "beer"
  else if strContains c "liquor" then some "spirits"
  else none

/-- One iteration guard of `_extract_category`: `if level:` skips `None` and
`""`. -/
def classify_category_opt (o : Option String) : Option String :=
  match o with
  | some s => if s = "" then none else classify_category_level s
  | none => none

/-- `ProductScorer._extract_category`: scan category levels 1→2→3, return the
first classified category, else `"default"`. -/
def extract_category (p : Product) : String :=
  (classify_category_opt p.category_level_1 <|>
   classify_category_opt p.category_level_2 <|>
   classify_category_opt p.category_level_3).getD "default"

/-- The city-availability `elif` chain of `_calculate_locality_score`
(at most one branch fires, `+0.3`). -/
def city_bonus (city : String) (p : Product) : ℚ :=
  let c := strLower city
  if c = "sydney" ∧ p.sold_at_sydney = some 1 then 3/10
  else if c = "melbourne" ∧ p.sold_at_melbourne = some 1 then 3/10
  else if c = "brisbane" ∧ p.sold_at_brisbane = some 1 then 3/10
  else if c = "adelaide" ∧ p.sold_at_adelaide = some 1 then 3/10
  else if c = "cairns" ∧ p.sold_at_cairns = some 1 then 3/10
  else 0

/-- `ProductScorer._calculate_locality_score`. -/
def calculate_locality_score (p : Product) (profile : Profile) : ℚ :=
  let loc := get_location_from_profile profile
  let s1 : ℚ := if truthy loc.city then city_bonus (loc.city.getD "") p else 0
  let s2 : ℚ :=
    if truthy loc.state ∧ truthy p.region ∧
        strContains (strLower (p.region.getD "")) (strLower (loc.state.getD "")) then 1/5
    else 0
  let s3 : ℚ :=
    if truthy loc.country ∧ truthy p.country ∧
        strContains (strLower (p.country.getD "")) (strLower (loc.country.getD "")) then 1/5
    else 0
  let s4 : ℚ :=
    if truthy p.origin ∧ truthy loc.country ∧
        strContains (strLower (p.origin.getD "")) (strLower (loc.country.getD "")) then 1/10
    else 0
  min (s1 + s2 + s3 + s4) 1

/-- `ProductScorer._calculate_category_fitness`. -/
def calculate_category_fitness (p : Product) (profile : Profile) : ℚ :=
  let venue := strLower profile.venueType
  let cuisine := strLower (profile.cuisineStyle.getD "")
  let weights := venue_weights venue
  let category := extract_category p
  let base := weights category
  let base :=
    if venue = "fine dining" ∧ cuisine = "fine dining" ∧
        (category = "champagne" ∨ category = "sparkling") then base + 1/5
    else base
  let base := if p.is_bundle then base + 1/10 else base
  min base 1

/-- `ProductScorer._calculate_supplier_boost`: falsy tier (`None` or `""`)
uses the table's `"default"` entry, otherwise a case-insensitive table
lookup with the `"default"` entry as fallback. -/
def calculate_supplier_boost (p : Product) : ℚ :=
  if ¬ truthy p.supplier_tier then 1/2
  else supplier_weights_get (strLower (p.supplier_tier.getD "")) (1/2)

/-- `ProductScorer._calculate_composite_score`: reads the three sub-score
fields already stored on the product. -/
def calculate_composite_score (p : Product) : ℚ :=
  min (3/10 * p.locality_score + 2/5 * p.category_fitness +
       1/5 * p.supplier_boost + 1/10 * (if p.is_bundle then (1/10 : ℚ) else 0)) 1

/-- The per-product mutation block of `score_products`: the four computed
fields are assigned in source order, the composite reading the three freshly
assigned sub-scores. -/
def setScores (profile : Profile) (p : Product) : Product :=
  let p1 := { p with locality_score := calculate_locality_score p profile }
  let p2 := { p1 with category_fitness := calculate_category_fitness p1 profile }
  let p3 := { p2 with supplier_boost := calculate_supplier_boost p2 }
  { p3 with composite_score := calculate_composite_score p3 }

/-- Secondary sort key: `self.supplier_weights.get(p.supplier_tier or
"default", 0)` — note fallback `0`, not `0.5`, and no lowercasing here. -/
def sort_tier_weight (p : Product) : ℚ :=
  supplier_weights_get (orDefault p.supplier_tier "default") 0

/-- The comparison realised by `sorted(key=(composite, tier weight, supplier
or ""), reverse=True)`: `keyGe a b` holds iff `a` may come no later than `b`,
i.e. `a`'s key tuple is `≥` `b`'s lexicographically (so on fully equal keys
both directions hold and stability keeps the original order, exactly as
Python's stable `sorted` with `reverse=True`). -/
def keyGe (a b : Product) : Bool :=
  if a.composite_score > b.composite_score then true
  else if a.composite_score < b.composite_score then false
  else if sort_tier_weight a > sort_tier_weight b then true
  else if sort_tier_weight a < sort_tier_weight b then false
  else strLe (b.supplier.getD "") (a.supplier.getD "")

/-- Stable insertion: place `x` before the first `y` with `ge x y`. -/
def insertByGe (ge : α → α → Bool) (x : α) : List α → List α
  | [] => [x]
  | y :: ys => if ge x y then x :: y :: ys else y :: insertByGe ge x ys

/-- Stable sort putting `ge`-greater elements first; for a total relation
this is the unique stable descending sort, i.e. Python's
`sorted(_, key, reverse=True)`. -/
def sortByGe (ge : α → α → Bool) (l : List α) : List α :=
  l.foldr (insertByGe ge) []

/-- `ProductScorer.score_products`: keep only products with visibility
code `"4"`, assign the four computed scores to each, sort descending. -/
def score_products (products : List Product) (profile : Profile) : List Product :=
  let visible_products := products.filter (fun p => p.visibility = some "4")
  let scored := visible_products.map (setScores profile)
  sortByGe keyGe scored

/-- `set.add` on the `seen_combinations` set of `select_candidates`
(deduplicating insertion; a Python `set` holds each key at most once). -/
def seenAdd (k : String × String) (seen : List (String × String)) :
    List (String × String) :=
  if k ∈ seen then seen else k :: seen

/-- The loop of `ProductScorer.select_candidates`, with the accumulated
candidates kept reversed.  `count` re-counts matching members of the *set*
`seen_combinations`, faithfully to the source (so it is 0 or 1, never
reaching the intended cap of 3). -/
def select_candidates_go (top_k : ℕ) :
    List Product → List Product → List (String × String) → List Product
  | [], acc, _ => acc.reverse
  | p :: rest, acc, seen =>
    if acc.length ≥ top_k then acc.reverse
    else
      let brand := orDefault p.brand "unknown"
      let category := orDefault p.category_level_1 "unknown"
      let key := (strLower brand, strLower category)
      let count := (seen.filter (fun bc =>
        bc.1 = strLower brand ∧ bc.2 = strLower category)).length
      if count < 3 then select_candidates_go top_k rest (p :: acc) (seenAdd key seen)
      else select_candidates_go top_k rest acc seen

/-- `ProductScorer.select_candidates`. -/
def select_candidates (scored_products : List Product) (top_k : ℕ) : List Product :=
  select_candidates_go top_k scored_products [] []

/-- The catalog list as it stands after `score_products` ran over it.
Python's `[p for p in products if p.visibility == "4"]` aliases the shared
catalog `Product` objects, and the scoring loop assigns the four computed
score attributes on those objects in place, so the mutation writes through
to the process-wide catalog list. -/
def score_products_catalog_after (products : List Product) (profile : Profile) :
    List Product :=
  products.map (fun p => if p.visibility = some "4" then setScores profile p else p)

/-! ### LLM client (`app/llm_client.py`, class `LLMClient`) -/

/-- JSON values, as produced by `json.loads` / `response.json()`. -/
inductive Json where
  | null : Json
  | bool (b : Bool) : Json
  | num (q : ℚ) : Json
  | str (s : String) : Json
  | arr (elems : List Json) : Json
  | obj (fields : List (String × Json)) : Json

/-- Python `d[key]` / `key in d` on a decoded JSON value: only objects have
keys; the last binding of a duplicated key wins, as in `json.loads`. -/
def Json.get? (j : Json) (key : String) : Option Json :=
  match j with
  | obj fields => (fields.reverse.find? (fun kv => kv.1 == key)).map (fun kv => kv.2)
  | _ => none

/-- Python `isinstance(x, (int, float))` plus `float(x)`: JSON numbers are
accepted, and so are JSON booleans, because Python's `bool` is a subclass of
`int` (`float(True) = 1.0`). -/
def Json.asNum? (j : Json) : Option ℚ :=
  match j with
  | num q => some q
  | bool b => some (if b then (1 : ℚ) else 0)
  | _ => none

/-- Pydantic `List[str]` validation (v2: non-string elements raise, which the
caller turns into `None`). -/
def strListOfJson? : List Json → Option (List String)
  | [] => some []
  | Json.str s :: rest => (strListOfJson? rest).map (fun l => s :: l)
  | _ => none

/-- `data.get(key, [])` followed by pydantic `List[str]` validation, for the
five optional list fields of the gateway response. -/
def optStrList (o : Option Json) : Option (List String) :=
  match o with
  | none => some []
  | some (Json.arr l) => strListOfJson? l
  | some _ => none

/-- `LLMResponse` (models.py). -/
structure LLMResponse where
  curatedProductIds : List String
  reasoning : List String
  confidence : ℚ
  platinumSupplierProducts : List String := []
  bundledPacks : List String := []
  localFavorites : List String := []
  businessInsights : List String := []
  nextSteps : List String := []
deriving DecidableEq, Repr

/-- The validation half of `LLMClient._parse_llm_response`, applied to the
JSON-decoded message content: required fields `curatedProductIds` /
`reasoning` / `confidence` must be present, the first two must be lists, the
third a number; out-of-range confidence is clamped, never rejected; the
curated id list is truncated to `max_products`; every list must hold strings
(pydantic validation of `LLMResponse`, whose failure is caught and turned
into `None`).  Any violation yields `None`. -/
def parse_llm_data (data : Json) (max_products : ℕ) : Option LLMResponse :=
  match data.get? "curatedProductIds", data.get? "reasoning", data.get? "confidence" with
  | some idsJson, some reasoningJson, some confJson =>
    match idsJson, reasoningJson, confJson.asNum? with
    | Json.arr ids, Json.arr reasons, some q =>
      let confidence := if q < 0 ∨ q > 1 then max 0 (min 1 q) else q
      match strListOfJson? (ids.take max_products), strListOfJson? reasons,
            optStrList (data.get? "platinumSupplierProducts"),
            optStrList (data.get? "bundledPacks"),
            optStrList (data.get? "localFavorites"),
            optStrList (data.get? "businessInsights"),
            optStrList (data.get? "nextSteps") with
      | some curated_ids, some reasoning, some platinum, some bundled,
        some localFavs, some insights, some steps =>
        some { curatedProductIds := curated_ids
               reasoning := reasoning
               confidence := confidence
               platinumSupplierProducts := platinum
               bundledPacks := bundled
               localFavorites := localFavs
               businessInsights := insights
               nextSteps := steps }
      | _, _, _, _, _, _, _ => none
    | _, _, _ => none
  | _, _, _ => none

/-- The extraction half of `LLMClient._parse_llm_response`: pull
`response["choices"][0]["message"]["content"]` out of the API body.  Missing
or empty `choices`, a non-object first choice, a non-object `message`, and a
missing, empty or non-string `content` all end in `None` (either through the
explicit guards or through an exception caught by the enclosing handler). -/
def extract_content (response : Json) : Option String :=
  match response.get? "choices" with
  | some (Json.arr (c0 :: _)) =>
    match c0.get? "message" with
    | some (Json.obj mfields) =>
      match (Json.obj mfields).get? "content" with
      | some (Json.str s) => if s = "" then none else some s
      | some _ => none
      | none => none
    | some _ => none
    | none =>
      match c0 with
      | Json.obj _ => none
      | _ => none
  | some _ => none
  | none => none

/-- `LLMClient.finalize_candidates` composed with `_call_llm_api` and
`_parse_llm_response`.  `callRaised` stands for any exception in the HTTP
call or in the client (caught, `None`); a non-200 status is `None`; `decode`
is `json.loads` on the message content (`none` = `JSONDecodeError`). -/
def finalize_candidates (callRaised : Bool) (status : ℕ) (body : Json)
    (decode : String → Option Json) (max_products : ℕ) : Option LLMResponse :=
  if callRaised then none
  else if status = 200 then
    match extract_content body with
    | none => none
    | some content =>
      match decode content with
      | none => none
      | some data => parse_llm_data data max_products
  else none

/-! ### Curation orchestrator (`app/main.py`) -/

/-- `CurateResponse` (models.py).  The `generatedAt` timestamp is real time
and carries no algorithmic content; it is left out of the embedding. -/
structure CurateResponse where
  curatedProductIds : List String
  curatedProducts : List Product
  reasoning : List String
  confidence : ℚ
  platinumSupplierProducts : List String
  platinumProducts : List Product
  bundledPacks : List String
  bundledProducts : List Product
  localFavorites : List String
  localFavoriteProducts : List Product
  businessInsights : List String
  nextSteps : List String
deriving DecidableEq, Repr

/-- `_get_local_favorite_products` (main.py): candidates available in the
profile's resolved city, via the five per-city flags. -/
def get_local_favorite_products (products : List Product) (profile : Profile) :
    List Product :=
  let loc := get_location_from_profile profile
  let c := strLower (loc.city.getD "")
  products.filter (fun p =>
    truthy loc.city ∧
      ((c = "sydney" ∧ p.sold_at_sydney = some 1) ∨
       (c = "melbourne" ∧ p.sold_at_melbourne = some 1) ∨
       (c = "brisbane" ∧ p.sold_at_brisbane = some 1) ∨
       (c = "adelaide" ∧ p.sold_at_adelaide = some 1) ∨
       (c = "cairns" ∧ p.sold_at_cairns = some 1)))

/-- `_generate_rule_based_reasoning` (main.py). -/
def generate_rule_based_reasoning (profile : Profile) (products : List Product) :
    List String :=
  let vt := profile.venueType
  let loc := get_location_from_profile profile
  let cityName := loc.city.getD ""
  let venue := strLower profile.venueType
  let bundle_count := (products.filter (fun p => p.is_bundle)).length
  let platinum_count :=
    (products.filter (fun p => p.supplier_tier = some "platinum")).length
  [s!"Curated for {vt} venue type"]
    ++ (if truthy loc.city then [s!"Prioritized products available in {cityName}"] else [])
    ++ (if venue = "restaurant" ∨ venue = "fine dining" then
          ["Emphasized wine and champagne selections for dining experience"]
        else if venue = "bar" then ["Focused on spirits and beer for bar service"]
        else [])
    ++ (if bundle_count > 0 then [s!"Included {bundle_count} curated bundles for variety"] else [])
    ++ (if platinum_count > 0 then [s!"Featured {platinum_count} platinum supplier products"] else [])

/-- Deduplicate keeping the first occurrence of each element, as a Python
`dict` / `set` built by insertion preserves first-insertion order. -/
def dedupKeepFirst : List String → List String
  | [] => []
  | x :: xs => x :: (dedupKeepFirst xs).filter (fun y => y ≠ x)

/-- The category-distribution maximum of `_generate_business_insights`:
Python's `max(categories.items(), key=count)` over an insertion-ordered dict
returns the first key reaching the maximal count; `("Unknown", 0)` for an
empty dict.  Note `p.category_level_1 or "Unknown"` treats `""` like `None`. -/
def topCategory (products : List Product) : String × ℕ :=
  let cats := products.map (fun p => orDefault p.category_level_1 "Unknown")
  let items := (dedupKeepFirst cats).map
    (fun k => (k, (cats.filter (fun c => c = k)).length))
  match items with
  | [] => ("Unknown", 0)
  | x :: xs => xs.foldl (fun best kv => if kv.2 > best.2 then kv else best) x

/-- Python's `f"{x:.1%}"` on the bundle ratio: percentage with one decimal.
Rounding of the exact rational is half-up; the binary-float half-even edge
cases of the source are not modelled (the digits agree on all non-boundary
values). -/
def formatPercent1 (q : ℚ) : String :=
  let m := (Int.floor (q * 1000 + 1/2)).toNat
  let whole := m / 10
  let frac := m % 10
  toString whole ++ "." ++ toString frac ++ "%"

/-- `_generate_business_insights` (main.py), run over the candidate list. -/
def generate_business_insights (profile : Profile) (products : List Product) :
    List String :=
  let top := topCategory products
  let topName := top.1
  let topCount := top.2
  let supplier_count :=
    (dedupKeepFirst ((products.filter (fun p => truthy p.supplier)).map
      (fun p => p.supplier.getD ""))).length
  let bundle_ratio : ℚ :=
    if products.length = 0 then 0
    else ((products.filter (fun p => p.is_bundle)).length : ℚ) / products.length
  let pct := formatPercent1 bundle_ratio
  [s!"Top category: {topName} ({topCount} products)",
   s!"Products from {supplier_count} different suppliers"]
    ++ (if bundle_ratio > 1/10 then [s!"High bundle ratio ({pct}) - good for variety"] else [])

/-- `_generate_next_steps` (main.py). -/
def generate_next_steps (profile : Profile) : List String :=
  let venue := strLower profile.venueType
  ["Review curated product list and select initial order",
   "Contact suppliers for pricing and availability"]
    ++ (if venue = "restaurant" ∨ venue = "fine dining" then
          ["Consider wine pairing recommendations for your menu",
           "Plan staff training on product knowledge"]
        else [])
    ++ (if profile.tier = some "bronze" then
          ["Explore upgrade opportunities to access premium products"]
        else [])
    ++ ["Set up regular reordering schedule",
        "Monitor customer preferences and adjust selections"]

/-- The `sku_to_product` dict lookup of `_map_skus_to_products`: the dict is
keyed by `p.sku or p.id` with the last duplicate winning, so a lookup finds
the last candidate with that key. -/
def lookupSku (candidates : List Product) (s : String) : Option Product :=
  candidates.reverse.find? (fun p => skuOrId p == s)

/-- `_map_skus_to_products` (main.py):
`[sku_to_product[sku] for sku in skus if sku in sku_to_product]`. -/
def map_skus_to_products (skus : List String) (candidates : List Product) :
    List Product :=
  skus.filterMap (fun s => lookupSku candidates s)

/-- The candidate set of a request: scoring followed by diversity-capped
selection with the preselection width. -/
def candidatesOf (products : List Product) (profile : Profile) (top_k : ℕ) :
    List Product :=
  select_candidates (score_products products profile) top_k

/-- Step 2 of `curate_products` (main.py): the deterministic base
`response_data`, built before the gateway is consulted. -/
def base_response (products : List Product) (profile : Profile)
    (max_products top_k_preselect : ℕ) : CurateResponse :=
  let candidates := candidatesOf products profile top_k_preselect
  let curated_products := candidates.take max_products
  let platinum_products :=
    (candidates.filter (fun p => p.supplier_tier = some "platinum")).take 10
  let bundled_products := (candidates.filter (fun p => p.is_bundle)).take 10
  let local_favorite_products :=
    (get_local_favorite_products candidates profile).take 10
  { curatedProductIds := curated_products.map skuOrId
    curatedProducts := curated_products
    reasoning := generate_rule_based_reasoning profile curated_products
    confidence := 4/5
    platinumSupplierProducts := platinum_products.map skuOrId
    platinumProducts := platinum_products
    bundledPacks := bundled_products.map skuOrId
    bundledProducts := bundled_products
    localFavorites := local_favorite_products.map skuOrId
    localFavoriteProducts := local_favorite_products
    businessInsights := generate_business_insights profile candidates
    nextSteps := generate_next_steps profile }

/-- `curate_products` (main.py), the `/curate` pipeline after request
validation.  `use_llm` is `USE_LLM and llm_client`; `llm_response` is the
value of `await llm_client.finalize_candidates(...)`, with `none` standing
for a `None` return as well as for any exception raised by the call (both
are caught and fall through to the base result).  On a truthy gateway
response the orchestrator overwrites every list/reasoning field at once;
otherwise `response_data` is returned unchanged. -/
def curate_products (products : List Product) (profile : Profile)
    (max_products top_k_preselect : ℕ) (use_llm : Bool)
    (llm_response : Option LLMResponse) : CurateResponse :=
  let base := base_response products profile max_products top_k_preselect
  match use_llm, llm_response with
  | true, some r =>
    let candidates := candidatesOf products profile top_k_preselect
    let llm_curated_products := map_skus_to_products r.curatedProductIds candidates
    let llm_platinum_products := map_skus_to_products r.platinumSupplierProducts candidates
    let llm_bundled_products := map_skus_to_products r.bundledPacks candidates
    let llm_local_products := map_skus_to_products r.localFavorites candidates
    { base with
      curatedProductIds := r.curatedProductIds.take max_products
      curatedProducts := llm_curated_products.take max_products
      reasoning := r.reasoning
      confidence := r.confidence
      platinumSupplierProducts := r.platinumSupplierProducts
      platinumProducts := llm_platinum_products
      bundledPacks := r.bundledPacks
      bundledProducts := llm_bundled_products
      localFavorites := r.localFavorites
      localFavoriteProducts := llm_local_products
      businessInsights := r.businessInsights
      nextSteps := r.nextSteps }
  | _, _ => base

/-- A decoded gateway payload the validator rejects: a required field is
missing, `curatedProductIds` or `reasoning` is not a JSON array, or
`confidence` is not numeric. -/
def invalid_gateway_data (data : Json) : Prop :=
  data.get? "curatedProductIds" = none ∨
  data.get? "reasoning" = none ∨
  data.get? "confidence" = none ∨
  (∃ j, data.get? "curatedProductIds" = some j ∧ ∀ l, j ≠ Json.arr l) ∨
  (∃ j, data.get? "reasoning" = some j ∧ ∀ l, j ≠ Json.arr l) ∨
  (∃ j, data.get? "confidence" = some j ∧ j.asNum? = none)

/-- An invalid gateway response body: no extractable message content, content
that is not JSON, or JSON content the validator rejects. -/
def invalid_gateway_output (body : Json) (decode : String → Option Json) : Prop :=
  extract_content body = none ∨
  (∃ c, extract_content body = some c ∧ decode c = none) ∨
  (∃ c d, extract_content body = some c ∧ decode c = some d ∧ invalid_gateway_data d)

/-! ### Concrete inputs for evaluations and witnesses -/

/-- A minimal profile. -/
def barProfile : Profile := { venueType := "bar" }

/-- A visible product with no optional attributes. -/
def plainProduct : Product := { id := "p1", name := "P1", visibility := some "4" }

/-- Four visible products sharing brand `Acme` and category `Spirits`, ranked
by descending composite score. -/
def acmeSpirit (i : String) (score : ℚ) : Product :=
  { id := i
    name := i
    brand := some "Acme"
    category_level_1 := some "Spirits"
    visibility := some "4"
    composite_score := score }

/-- Two products identical in every score-relevant attribute, differing only
in supplier name. -/
def goldBeer (i supplierName : String) : Product :=
  { id := i
    name := i
    supplier := some supplierName
    supplier_tier := some "gold"
    category_level_1 := some "Beer"
    visibility := some "4" }

/-- A gateway response whose single curated identifier does not occur in any
candidate set built from the concrete catalogs below. -/
def ghostResponse : LLMResponse :=
  { curatedProductIds := ["ghost"], reasoning := [], confidence := 1 }

/-- A structurally valid decoded gateway payload carrying the three required
fields: id and reasoning arrays of strings and a numeric confidence. -/
def mkLLMData (ids reasons : List String) (q : ℚ) : Json :=
  Json.obj [("curatedProductIds", Json.arr (ids.map Json.str)),
            ("reasoning", Json.arr (reasons.map Json.str)),
            ("confidence", Json.num q)]

/-! ### General lemmas about the embedding -/

theorem insertByGe_perm (ge : α → α → Bool) (x : α) (l : List α) :
    (insertByGe ge x l).Perm (x :: l) := by
  induction l with
  | nil => exact List.Perm.refl _
  | cons y ys ih =>
    by_cases h : ge x y
    · simp [insertByGe, h]
    · simp only [insertByGe, if_neg h]
      exact (ih.cons y).trans (List.Perm.swap x y ys)

theorem sortByGe_perm (ge : α → α → Bool) (l : List α) : (sortByGe ge l).Perm l := by
  induction l with
  | nil => exact List.Perm.refl _
  | cons x xs ih =>
    exact (insertByGe_perm ge x (sortByGe ge xs)).trans (ih.cons x)

/-- When the gateway is disabled or produced nothing usable, the orchestrator
returns the deterministic base result unchanged. -/
theorem curate_products_fallback (products : List Product) (profile : Profile)
    (max_products top_k : ℕ) (use_llm : Bool) (llm_response : Option LLMResponse)
    (h : use_llm = false ∨ llm_response = none) :
    curate_products products profile max_products top_k use_llm llm_response
      = base_response products profile max_products top_k := by
  rcases h with h | h
  · subst h; rfl
  · subst h; cases use_llm <;> rfl

theorem parse_llm_data_none_of_invalid (data : Json) (max_products : ℕ)
    (h : invalid_gateway_data data) : parse_llm_data data max_products = none := by
  unfold parse_llm_data
  rcases h1 : data.get? "curatedProductIds" with _ | j1 <;>
    rcases h2 : data.get? "reasoning" with _ | j2 <;>
      rcases h3 : data.get? "confidence" with _ | j3 <;>
        simp only [] <;>
          try rfl
  -- all three fields present: the invalidity must be a type violation
  rcases h with h | h | h | ⟨j, hj, hna⟩ | ⟨j, hj, hna⟩ | ⟨j, hj, hnn⟩
  · rw [h1] at h; exact absurd h (by simp)
  · rw [h2] at h; exact absurd h (by simp)
  · rw [h3] at h; exact absurd h (by simp)
  · rw [h1] at hj; obtain rfl : j1 = j := by injection hj
    cases j1 <;> simp_all
  · rw [h2] at hj; obtain rfl : j2 = j := by injection hj
    cases j1 <;> cases j2 <;> simp_all
  · rw [h3] at hj; obtain rfl : j3 = j := by injection hj
    cases j1 <;> cases j2 <;> simp_all

theorem finalize_candidates_none (callRaised : Bool) (status : ℕ) (body : Json)
    (decode : String → Option Json) (max_products : ℕ)
    (h : callRaised = true ∨ status ≠ 200 ∨ invalid_gateway_output body decode) :
    finalize_candidates callRaised status body decode max_products = none := by
  unfold finalize_candidates
  rcases h with h | h | h
  · simp [h]
  · cases callRaised
    · simp [h]
    · rfl
  · cases callRaised
    · by_cases hs : status = 200
      · subst hs
        show (match extract_content body with
          | none => none
          | some content =>
            match decode content with
            | none => none
            | some data => parse_llm_data data max_products) = none
        rcases h with h | ⟨c, hc, hd⟩ | ⟨c, d, hc, hd, hinv⟩
        · rw [h]
        · simp only [hc, hd]
        · simp only [hc, hd]
          exact parse_llm_data_none_of_invalid d max_products hinv
      · simp [hs]
    · rfl

/-- C1.  If the gateway is disabled, raises, answers non-2xx, or returns an
invalid body (no/empty content, non-JSON content, missing
`curatedProductIds`/`reasoning`/`confidence`, wrong field types), the
response is exactly the deterministic base result of step 2, with confidence
exactly 0.8 and no partial merge. -/
theorem curate_deterministic_on_gateway_failure (products : List Product)
    (profile : Profile) (max_products top_k : ℕ) (use_llm callRaised : Bool)
    (status : ℕ) (body : Json) (decode : String → Option Json)
    (h : use_llm = false ∨ callRaised = true ∨ status ≠ 200 ∨
      invalid_gateway_output body decode) :
    curate_products products profile max_products top_k use_llm
        (finalize_candidates callRaised status body decode max_products)
      = base_response products profile max_products top_k ∧
    (curate_products products profile max_products top_k use_llm
        (finalize_candidates callRaised status body decode max_products)).confidence
      = 4/5 := by
  have hbase : curate_products products profile max_products top_k use_llm
      (finalize_candidates callRaised status body decode max_products)
    = base_response products profile max_products top_k := by
    rcases h with h | h
    · exact curate_products_fallback _ _ _ _ _ _ (Or.inl h)
    · exact curate_products_fallback _ _ _ _ _ _
        (Or.inr (finalize_candidates_none _ _ _ _ _ h))
  exact ⟨hbase, by rw [hbase]; rfl⟩

/-- Concrete instantiation of C1: gateway disabled. -/
theorem curate_deterministic_on_gateway_failure_witness :
    ((false : Bool) = false ∨ (false : Bool) = true ∨ (200 : ℕ) ≠ 200 ∨
      invalid_gateway_output Json.null (fun _ => none)) ∧
    (curate_products [] { venueType := "bar" } 5 10 false
        (finalize_candidates false 200 Json.null (fun _ => none) 5)
      = base_response [] { venueType := "bar" } 5 10 ∧
    (curate_products [] { venueType := "bar" } 5 10 false
        (finalize_candidates false 200 Json.null (fun _ => none) 5)).confidence
      = 4/5) :=
  ⟨Or.inl rfl,
   curate_deterministic_on_gateway_failure [] { venueType := "bar" } 5 10 false
     false 200 Json.null (fun _ => none) (Or.inl rfl)⟩

/-- C2 (against the code as written).  Four visible products sharing brand
`Acme` and category `Spirits`, ranked by descending score, with `topK = 10`:
the selector accepts all four.  The per-pair counter queries the
deduplicated `seen_combinations` set, so it never exceeds 1 and the
intended cap of 3 never binds; the claimed outcome (exactly the first 3
selected) does not hold. -/
theorem select_candidates_cap_never_binds :
    (select_candidates
        [acmeSpirit "s1" (9/10), acmeSpirit "s2" (8/10),
         acmeSpirit "s3" (7/10), acmeSpirit "s4" (6/10)] 10).map (fun p => p.id)
      = ["s1", "s2", "s3", "s4"] := by
  decide

/-- C9 (against the code as written).  Scoring writes the computed score
fields in place on the catalog products: after one request over a
single-product catalog, the catalog list has changed. -/
theorem score_products_mutates_catalog :
    score_products_catalog_after [plainProduct] barProfile ≠ [plainProduct] := by
  intro h
  have h2 := congrArg (fun l => (l.headD plainProduct).supplier_boost) h
  norm_num [score_products_catalog_after, setScores, calculate_supplier_boost,
    truthy, plainProduct] at h2

/-- C7.  Scoring returns exactly the visible subset of the input (products
whose visibility code is the string `"4"`), score-annotated, as a
permutation; no other product ever appears in the scored output. -/
theorem score_products_perm_visible (products : List Product) (profile : Profile) :
    (score_products products profile).Perm
      ((products.filter (fun p => p.visibility = some "4")).map (setScores profile)) ∧
    ∀ p ∈ score_products products profile, p.visibility = some "4" := by
  constructor
  · exact sortByGe_perm _ _
  · intro p hp
    have hp' : p ∈ (products.filter
        (fun p => p.visibility = some "4")).map (setScores profile) :=
      ((sortByGe_perm _ _).mem_iff).mp hp
    obtain ⟨q, hq, rfl⟩ := List.mem_map.mp hp'
    have hqv : q.visibility = some "4" := by
      have := List.of_mem_filter hq
      simpa using this
    exact hqv

/-- Concrete instantiation of C7 at a one-product catalog. -/
theorem score_products_perm_visible_witness :
    (score_products [plainProduct] barProfile).Perm
      (([plainProduct].filter (fun p => p.visibility = some "4")).map
        (setScores barProfile)) ∧
    (setScores barProfile plainProduct).visibility = some "4" :=
  ⟨(score_products_perm_visible [plainProduct] barProfile).1,
   (score_products_perm_visible [plainProduct] barProfile).2
     (setScores barProfile plainProduct) (List.mem_singleton_self _)⟩

/-- C6.  Every product in scored output carries
`composite = min(0.3*locality + 0.4*categoryFitness + 0.2*supplierBoost +
0.1*(0.1 if bundle else 0), 1)`, and the bundle term is at most `0.01`. -/
theorem composite_score_formula (products : List Product) (profile : Profile) :
    ∀ p ∈ score_products products profile,
      p.composite_score = min (3/10 * p.locality_score + 2/5 * p.category_fitness +
        1/5 * p.supplier_boost + 1/10 * (if p.is_bundle then (1/10 : ℚ) else 0)) 1 ∧
      1/10 * (if p.is_bundle then (1/10 : ℚ) else 0) ≤ 1/100 := by
  intro p hp
  have hp' : p ∈ (products.filter
      (fun p => p.visibility = some "4")).map (setScores profile) :=
    ((sortByGe_perm _ _).mem_iff).mp hp
  obtain ⟨q, hq, rfl⟩ := List.mem_map.mp hp'
  constructor
  · rfl
  · by_cases hb : (setScores profile q).is_bundle <;> simp [hb] <;> norm_num

/-- Concrete instantiation of C6 at a one-product catalog. -/
theorem composite_score_formula_witness :
    (setScores barProfile plainProduct).composite_score
      = min (3/10 * (setScores barProfile plainProduct).locality_score +
          2/5 * (setScores barProfile plainProduct).category_fitness +
          1/5 * (setScores barProfile plainProduct).supplier_boost +
          1/10 * (if (setScores barProfile plainProduct).is_bundle
                  then (1/10 : ℚ) else 0)) 1 ∧
    1/10 * (if (setScores barProfile plainProduct).is_bundle
            then (1/10 : ℚ) else 0) ≤ 1/100 :=
  composite_score_formula [plainProduct] barProfile
    (setScores barProfile plainProduct) (List.mem_singleton_self _)

/-- C5 (against the code as written).  Two products tied on composite score
and supplier-tier weight, with supplier names `Alpha` and `Beta`: the scored
output lists `Beta` first.  `reverse=True` flips the whole key tuple, so the
supplier-name tie-break is descending, not ascending as claimed (and as the
code's own inline comment states). -/
theorem sort_supplier_tiebreak_descending :
    (score_products [goldBeer "a" "Alpha", goldBeer "b" "Beta"] barProfile).map
      (fun p => p.supplier) = [some "Beta", some "Alpha"] := by
  norm_num [score_products, setScores, calculate_locality_score,
    calculate_category_fitness, calculate_supplier_boost,
    calculate_composite_score, get_location_from_profile, extract_category,
    classify_category_opt, classify_category_level, venue_weights, barWeights,
    restaurantWeights, supplier_weights_get, strLower, strContains, truthy,
    city_bonus, sortByGe, insertByGe, keyGe, sort_tier_weight, orDefault,
    strLe, strLe.go, barProfile, goldBeer]
  decide

/-- Helper: pydantic accepts an array built from strings as `List[str]`. -/
theorem strListOfJson_map_str (l : List String) :
    strListOfJson? (l.map Json.str) = some l := by
  induction l with
  | nil => rfl
  | cons s rest ih => simp [strListOfJson?, ih]

/-- C8.  An otherwise valid gateway payload whose numeric confidence lies
outside `[0,1]` is not rejected: parsing succeeds and the stored confidence
is clamped into `[0,1]`; at gateway confidence `1.7` the stored confidence
is exactly `1`. -/
theorem gateway_confidence_clamped (ids reasons : List String) (q : ℚ)
    (max_products : ℕ) :
    ∃ r, parse_llm_data (mkLLMData ids reasons q) max_products = some r ∧
      r.confidence = max 0 (min 1 q) ∧ (q = 17/10 → r.confidence = 1) := by
  refine ⟨{ curatedProductIds := ids.take max_products
            reasoning := reasons
            confidence := if q < 0 ∨ q > 1 then max 0 (min 1 q) else q },
    ?_, ?_, ?_⟩
  · have h1 : (mkLLMData ids reasons q).get? "curatedProductIds"
        = some (Json.arr (ids.map Json.str)) := rfl
    have h2 : (mkLLMData ids reasons q).get? "reasoning"
        = some (Json.arr (reasons.map Json.str)) := rfl
    have h3 : (mkLLMData ids reasons q).get? "confidence"
        = some (Json.num q) := rfl
    have h4 : (mkLLMData ids reasons q).get? "platinumSupplierProducts" = none := rfl
    have h5 : (mkLLMData ids reasons q).get? "bundledPacks" = none := rfl
    have h6 : (mkLLMData ids reasons q).get? "localFavorites" = none := rfl
    have h7 : (mkLLMData ids reasons q).get? "businessInsights" = none := rfl
    have h8 : (mkLLMData ids reasons q).get? "nextSteps" = none := rfl
    unfold parse_llm_data
    rw [h1, h2, h3]
    simp only [Json.asNum?, ← List.map_take, strListOfJson_map_str, optStrList,
      h4, h5, h6, h7, h8]
  · by_cases h : q < 0 ∨ q > 1
    · simp [h]
    · push_neg at h
      obtain ⟨h0, h1'⟩ := h
      rw [if_neg (by push_neg; exact ⟨h0, h1'⟩), min_eq_right h1', max_eq_right h0]
  · intro hq
    subst hq
    norm_num

/-- Concrete instantiation of C8 at gateway confidence 1.7. -/
theorem gateway_confidence_clamped_witness :
    ∃ r, parse_llm_data (mkLLMData [] [] (17/10)) 5 = some r ∧ r.confidence = 1 := by
  obtain ⟨r, hr, _, himp⟩ := gateway_confidence_clamped [] [] (17/10) 5
  exact ⟨r, hr, himp rfl⟩

/-- Helper: a successful dict lookup returns a candidate keyed by the looked
up identifier. -/
theorem lookupSku_spec (cs : List Product) (s : String) (p : Product)
    (h : lookupSku cs s = some p) : skuOrId p = s ∧ p ∈ cs := by
  unfold lookupSku at h
  refine ⟨?_, ?_⟩
  · have := List.find?_some h
    simpa using this
  · have := List.mem_of_find?_eq_some h
    simpa [List.mem_reverse] using this

/-- Helper: the dict lookup succeeds exactly for identifiers keyed by some
candidate. -/
theorem lookupSku_isSome_iff (cs : List Product) (s : String) :
    (lookupSku cs s).isSome ↔ s ∈ cs.map skuOrId := by
  unfold lookupSku
  rw [List.find?_isSome]
  constructor
  · rintro ⟨p, hp, he⟩
    exact List.mem_map.mpr ⟨p, List.mem_reverse.mp hp, eq_of_beq he⟩
  · rintro hm
    obtain ⟨p, hp, he⟩ := List.mem_map.mp hm
    exact ⟨p, List.mem_reverse.mpr hp, by simp [he]⟩

/-- Helper: the keys of the remapped records are the input identifiers with
unresolvable ones filtered out, in order. -/
theorem map_skus_map_skuOrId (skus : List String) (cs : List Product) :
    (map_skus_to_products skus cs).map skuOrId
      = skus.filter (fun s => decide (s ∈ cs.map skuOrId)) := by
  induction skus with
  | nil => rfl
  | cons s rest ih =>
    unfold map_skus_to_products at ih ⊢
    rw [List.filterMap_cons, List.filter_cons]
    cases h : lookupSku cs s with
    | none =>
      have hn : ¬ s ∈ cs.map skuOrId := by
        rw [← lookupSku_isSome_iff]
        simp [h]
      simp [hn, ih]
    | some p =>
      have hm : s ∈ cs.map skuOrId := by
        rw [← lookupSku_isSome_iff]
        simp [h]
      have hs := (lookupSku_spec cs s p h).1
      simp [hm, ih, hs]

/-- Helper: every remapped record is a candidate. -/
theorem map_skus_mem (skus : List String) (cs : List Product) :
    ∀ p ∈ map_skus_to_products skus cs, p ∈ cs := by
  intro p hp
  obtain ⟨s, _, hl⟩ := List.mem_filterMap.mp hp
  exact (lookupSku_spec cs s p hl).2

/-- C3 fails as stated: with a candidate set `{p1}` and a gateway response
whose only curated identifier is the unknown `"ghost"`, the returned
identifier list has length 1 while the full-record list has length 0. -/
theorem response_lists_misaligned_on_unknown_id :
    ((curate_products [plainProduct] barProfile 5 10 true
        (some ghostResponse)).curatedProductIds).length ≠
    ((curate_products [plainProduct] barProfile 5 10 true
        (some ghostResponse)).curatedProducts).length := by
  decide

/-- C3 as amended.  Identifier list and full-record list are equal length and
order-aligned (the identifier at each position is the record's sku-or-id) in
every deterministic result, and in every gateway-derived result all of whose
identifiers resolve in the candidate set. -/
theorem response_lists_aligned (products : List Product) (profile : Profile)
    (max_products top_k : ℕ) (use_llm : Bool) (llm_response : Option LLMResponse)
    (h : use_llm = false ∨ llm_response = none ∨
      ∃ r, llm_response = some r ∧
        ∀ s ∈ r.curatedProductIds ++ r.platinumSupplierProducts ++
            r.bundledPacks ++ r.localFavorites,
          s ∈ (candidatesOf products profile top_k).map skuOrId) :
    ((curate_products products profile max_products top_k use_llm
        llm_response).curatedProductIds
      = (curate_products products profile max_products top_k use_llm
          llm_response).curatedProducts.map skuOrId) ∧
    ((curate_products products profile max_products top_k use_llm
        llm_response).platinumSupplierProducts
      = (curate_products products profile max_products top_k use_llm
          llm_response).platinumProducts.map skuOrId) ∧
    ((curate_products products profile max_products top_k use_llm
        llm_response).bundledPacks
      = (curate_products products profile max_products top_k use_llm
          llm_response).bundledProducts.map skuOrId) ∧
    ((curate_products products profile max_products top_k use_llm
        llm_response).localFavorites
      = (curate_products products profile max_products top_k use_llm
          llm_response).localFavoriteProducts.map skuOrId) := by
  rcases h with h | h | ⟨r, rfl, hall⟩
  · rw [curate_products_fallback _ _ _ _ _ _ (Or.inl h)]
    exact ⟨rfl, rfl, rfl, rfl⟩
  · rw [curate_products_fallback _ _ _ _ _ _ (Or.inr h)]
    exact ⟨rfl, rfl, rfl, rfl⟩
  · cases use_llm with
    | false =>
      rw [curate_products_fallback _ _ _ _ _ _ (Or.inl rfl)]
      exact ⟨rfl, rfl, rfl, rfl⟩
    | true =>
      have hfull : ∀ skus : List String,
          (∀ s ∈ skus, s ∈ (candidatesOf products profile top_k).map skuOrId) →
          (map_skus_to_products skus
              (candidatesOf products profile top_k)).map skuOrId = skus := by
        intro skus hsub
        rw [map_skus_map_skuOrId]
        exact List.filter_eq_self.mpr (fun s hs => by simpa using hsub s hs)
      refine ⟨?_, ?_, ?_, ?_⟩
      · show r.curatedProductIds.take max_products
          = ((map_skus_to_products r.curatedProductIds
              (candidatesOf products profile top_k)).take max_products).map skuOrId
        rw [List.map_take, hfull r.curatedProductIds
          (fun s hs => hall s (by simp [hs]))]
      · show r.platinumSupplierProducts
          = (map_skus_to_products r.platinumSupplierProducts
              (candidatesOf products profile top_k)).map skuOrId
        rw [hfull r.platinumSupplierProducts (fun s hs => hall s (by simp [hs]))]
      · show r.bundledPacks
          = (map_skus_to_products r.bundledPacks
              (candidatesOf products profile top_k)).map skuOrId
        rw [hfull r.bundledPacks (fun s hs => hall s (by simp [hs]))]
      · show r.localFavorites
          = (map_skus_to_products r.localFavorites
              (candidatesOf products profile top_k)).map skuOrId
        rw [hfull r.localFavorites (fun s hs => hall s (by simp [hs]))]

/-- Concrete instantiation of the amended C3: deterministic result. -/
theorem response_lists_aligned_witness :
    ((curate_products [plainProduct] barProfile 5 10 false none).curatedProductIds
      = (curate_products [plainProduct] barProfile 5 10 false
          none).curatedProducts.map skuOrId) ∧
    ((curate_products [plainProduct] barProfile 5 10 false none).platinumSupplierProducts
      = (curate_products [plainProduct] barProfile 5 10 false
          none).platinumProducts.map skuOrId) ∧
    ((curate_products [plainProduct] barProfile 5 10 false none).bundledPacks
      = (curate_products [plainProduct] barProfile 5 10 false
          none).bundledProducts.map skuOrId) ∧
    ((curate_products [plainProduct] barProfile 5 10 false none).localFavorites
      = (curate_products [plainProduct] barProfile 5 10 false
          none).localFavoriteProducts.map skuOrId) :=
  response_lists_aligned [plainProduct] barProfile 5 10 false none (Or.inl rfl)

/-- C4.  On gateway success every identifier list is taken verbatim from the
gateway response, while each full-record list drops the identifiers that
resolve to no candidate and remaps the others, in gateway order, to
candidate records. -/
theorem gateway_remap_drops_unknown_ids (products : List Product)
    (profile : Profile) (max_products top_k : ℕ) (r : LLMResponse)
    (hlen : r.curatedProductIds.length ≤ max_products) :
    ((curate_products products profile max_products top_k true
        (some r)).curatedProductIds = r.curatedProductIds) ∧
    ((curate_products products profile max_products top_k true
        (some r)).platinumSupplierProducts = r.platinumSupplierProducts) ∧
    ((curate_products products profile max_products top_k true
        (some r)).bundledPacks = r.bundledPacks) ∧
    ((curate_products products profile max_products top_k true
        (some r)).localFavorites = r.localFavorites) ∧
    ((curate_products products profile max_products top_k true
        (some r)).curatedProducts.map skuOrId
      = r.curatedProductIds.filter
          (fun s => decide (s ∈ (candidatesOf products profile top_k).map skuOrId))) ∧
    ((curate_products products profile max_products top_k true
        (some r)).platinumProducts.map skuOrId
      = r.platinumSupplierProducts.filter
          (fun s => decide (s ∈ (candidatesOf products profile top_k).map skuOrId))) ∧
    ((curate_products products profile max_products top_k true
        (some r)).bundledProducts.map skuOrId
      = r.bundledPacks.filter
          (fun s => decide (s ∈ (candidatesOf products profile top_k).map skuOrId))) ∧
    ((curate_products products profile max_products top_k true
        (some r)).localFavoriteProducts.map skuOrId
      = r.localFavorites.filter
          (fun s => decide (s ∈ (candidatesOf products profile top_k).map skuOrId))) ∧
    (∀ p, (p ∈ (curate_products products profile max_products top_k true
              (some r)).curatedProducts ∨
           p ∈ (curate_products products profile max_products top_k true
              (some r)).platinumProducts ∨
           p ∈ (curate_products products profile max_products top_k true
              (some r)).bundledProducts ∨
           p ∈ (curate_products products profile max_products top_k true
              (some r)).localFavoriteProducts) →
      p ∈ candidatesOf products profile top_k) := by
  have htake : (map_skus_to_products r.curatedProductIds
      (candidatesOf products profile top_k)).take max_products
    = map_skus_to_products r.curatedProductIds
        (candidatesOf products profile top_k) :=
    List.take_of_length_le
      (le_trans (List.length_filterMap_le _ _) hlen)
  refine ⟨?_, rfl, rfl, rfl, ?_, ?_, ?_, ?_, ?_⟩
  · show r.curatedProductIds.take max_products = r.curatedProductIds
    exact List.take_of_length_le hlen
  · show ((map_skus_to_products r.curatedProductIds
        (candidatesOf products profile top_k)).take max_products).map skuOrId = _
    rw [htake, map_skus_map_skuOrId]
  · exact map_skus_map_skuOrId _ _
  · exact map_skus_map_skuOrId _ _
  · exact map_skus_map_skuOrId _ _
  · intro p hp
    rcases hp with hp | hp | hp | hp
    · have hp' : p ∈ map_skus_to_products r.curatedProductIds
          (candidatesOf products profile top_k) := by
        rw [← htake]
        exact hp
      exact map_skus_mem _ _ p hp'
    · exact map_skus_mem _ _ p hp
    · exact map_skus_mem _ _ p hp
    · exact map_skus_mem _ _ p hp

/-- Concrete instantiation of C4: the gateway names one unknown identifier,
which survives in the identifier list. -/
theorem gateway_remap_drops_unknown_ids_witness :
    ghostResponse.curatedProductIds.length ≤ 5 ∧
    (curate_products [plainProduct] barProfile 5 10 true
        (some ghostResponse)).curatedProductIds = ghostResponse.curatedProductIds :=
  ⟨by decide,
   (gateway_remap_drops_unknown_ids [plainProduct] barProfile 5 10 ghostResponse
     (by decide)).1⟩

/-- C10.  In the deterministic response every identifier list is positionally
the sku-or-id of its record list; an explicit sku is used when present and
non-empty, the product id otherwise; and the gateway remapping resolves
identifiers with that same key. -/
theorem identifier_is_sku_or_id (products : List Product) (profile : Profile)
    (max_products top_k : ℕ) :
    ((curate_products products profile max_products top_k false none).curatedProductIds
      = (curate_products products profile max_products top_k false
          none).curatedProducts.map skuOrId) ∧
    ((curate_products products profile max_products top_k false none).platinumSupplierProducts
      = (curate_products products profile max_products top_k false
          none).platinumProducts.map skuOrId) ∧
    ((curate_products products profile max_products top_k false none).bundledPacks
      = (curate_products products profile max_products top_k false
          none).bundledProducts.map skuOrId) ∧
    ((curate_products products profile max_products top_k false none).localFavorites
      = (curate_products products profile max_products top_k false
          none).localFavoriteProducts.map skuOrId) ∧
    (∀ p : Product, ∀ s, p.sku = some s → s ≠ "" → skuOrId p = s) ∧
    (∀ p : Product, p.sku = none ∨ p.sku = some "" → skuOrId p = p.id) ∧
    (∀ cands s p, lookupSku cands s = some p → skuOrId p = s ∧ p ∈ cands) := by
  refine ⟨rfl, rfl, rfl, rfl, ?_, ?_, ?_⟩
  · intro p s hs hne
    simp [skuOrId, orDefault, hs, hne]
  · intro p hp
    rcases hp with hp | hp <;> simp [skuOrId, orDefault, hp]
  · exact lookupSku_spec

/-- Concrete instantiation of C10: a product with an explicit sku, one
without, and one concrete lookup. -/
theorem identifier_is_sku_or_id_witness :
    ((curate_products [plainProduct] barProfile 5 10 false none).curatedProductIds
      = (curate_products [plainProduct] barProfile 5 10 false
          none).curatedProducts.map skuOrId) ∧
    skuOrId { plainProduct with sku := some "SKU1" } = "SKU1" ∧
    skuOrId plainProduct = plainProduct.id ∧
    (skuOrId plainProduct = "p1" ∧ plainProduct ∈ [plainProduct]) :=
  ⟨(identifier_is_sku_or_id [plainProduct] barProfile 5 10).1,
   (identifier_is_sku_or_id [plainProduct] barProfile 5 10).2.2.2.2.1
     { plainProduct with sku := some "SKU1" } "SKU1" rfl (by decide),
   (identifier_is_sku_or_id [plainProduct] barProfile 5 10).2.2.2.2.2.1
     plainProduct (Or.inl rfl),
   (identifier_is_sku_or_id [plainProduct] barProfile 5 10).2.2.2.2.2.2
     [plainProduct] "p1" plainProduct rfl⟩

end Curation
